import Mathlib

/-! Shallow embedding of `src/sol_swap.py` (a CLI that buys/sells tokens through
an RPC provider and a swap aggregator) and verification of its specification.

External HTTP interactions are modelled by explicit outcome values supplied in
an environment record; each operation returns its result together with the
ordered list of network events it emitted, so that ordering properties
("the quote endpoint is never contacted", "the relay is tried first") are
statable.  Python floats are modelled by exact rationals; `int(x)` is
truncation toward zero (`pyTrunc`).  Base64 transport is treated as the
identity on byte lists (the payloads carried in events are the decoded bytes).
-/

namespace SolSwap

def SOL_ADDRESS : String := "So11111111111111111111111111111111111111112"

/-- Python `int(q)`: truncation of a rational toward zero. -/
def pyTrunc (q : ℚ) : ℤ := q.num.tdiv (q.den : ℤ)

/-! Section: get_sol_balance (src/sol_swap.py lines 21-41) -/

/-- Outcome of the `getBalance` HTTP POST: a network exception, or an HTTP
response with a status code and, when the JSON body has a well-formed
`result` field, its raw lamport `value`. -/
inductive BalanceOutcome where
  | netErr
  | resp (status : ℕ) (value : Option ℤ)
deriving DecidableEq

/-- Model of `get_sol_balance`: on a 200 response whose body has a `result` field,
divide the raw integer value by 1e9; on every other path return 0. -/
def get_sol_balance (o : BalanceOutcome) : ℚ :=
  match o with
  | .resp status (some v) => if status = 200 then (v : ℚ) / (10 ^ 9 : ℚ) else 0
  | _ => 0

/-! Section: wait_for_transaction_confirmation (src/sol_swap.py lines 43-74) -/

/-- Outcome of one `getTransaction` poll: a network exception, or an HTTP
response carrying, when the JSON `result` is non-null, that result's
`meta.err` field (`none` = transaction succeeded). -/
inductive PollResponse where
  | netErr
  | resp (status : ℕ) (result : Option (Option String))
deriving DecidableEq

/-- The transaction result extracted from one poll iteration: present only
when the response has status 200 and a non-null `result`; a network error,
a non-200 status, or a null result all yield `none` (the loop continues). -/
def pollResult : PollResponse → Option (Option String)
  | .netErr => none
  | .resp status result => if status = 200 then result else none

/-- The polling loop of `wait_for_transaction_confirmation`, instrumented with
the number of polls performed: `i` is the index of the next poll, the second
argument is the remaining fuel.  Returns (confirmed?, total polls issued). -/
def waitGo (polls : ℕ → PollResponse) : ℕ → ℕ → Bool × ℕ
  | i, 0 => (false, i)
  | i, fuel + 1 =>
    match pollResult (polls i) with
    | some err => (err.isNone, i + 1)
    | none => waitGo polls (i + 1) fuel

/-- Model of `wait_for_transaction_confirmation signature max_retries`, with the
sequence of poll outcomes for the given signature supplied as `polls`. -/
def wait_for_transaction_confirmation (polls : ℕ → PollResponse)
    (max_retries : ℕ) : Bool × ℕ :=
  waitGo polls 0 max_retries

/-! Section: create_swap_data (src/sol_swap.py lines 87-105) -/

/-- The `priorityLevelWithMaxLamports` object inside
`prioritizationFeeLamports`. -/
structure PriorityFeeCfg where
  maxLamports : ℕ
  priorityLevel : String
  globalFlag : Bool
deriving DecidableEq

/-- The JSON body posted to the aggregator's swap-build endpoint. -/
structure SwapData where
  quoteResponse : String
  userPublicKey : String
  wrapUnwrapSOL : Bool
  useVersionedTransaction : Bool
  dynamicComputeUnitLimit : Bool
  dynamicSlippageMaxBps : ℕ
  prioritizationFeeLamports : PriorityFeeCfg
deriving DecidableEq

/-- Model of `create_swap_data(quote_response, sender_public_key)`. -/
def create_swap_data (quote_response : String) (sender_public_key : String) :
    SwapData :=
  { quoteResponse := quote_response
    userPublicKey := sender_public_key
    wrapUnwrapSOL := true
    useVersionedTransaction := true
    dynamicComputeUnitLimit := true
    dynamicSlippageMaxBps := 300
    prioritizationFeeLamports :=
      { maxLamports := 10000000, priorityLevel := "veryHigh", globalFlag := false } }

/-! Section: versioned-transaction wire format and the signing step
(src/sol_swap.py lines 183-188 and 265-270)

A serialized versioned transaction is a compact-u16 (shortvec) count of
signatures, the 64-byte signatures themselves, then the message bytes.
`VersionedTransaction.from_bytes` is `parseTx`, `bytes(tx)` is `serializeTx`,
and `VersionedTransaction.populate(msg, [sig])` is the anonymous constructor. -/

structure VersionedTx where
  signatures : List (List ℕ)
  message : List ℕ
deriving DecidableEq

/-- Compact-u16 encoding: 7 bits per byte, little-endian, high bit marks
continuation. -/
def shortvecEncode (n : ℕ) : List ℕ :=
  if h : n < 128 then [n] else (n % 128 + 128) :: shortvecEncode (n / 128)
decreasing_by
  exact Nat.div_lt_self (by omega) (by omega)

/-- Compact-u16 decoding; returns the value and the remaining bytes. -/
def shortvecDecode : List ℕ → Option (ℕ × List ℕ)
  | [] => none
  | b :: rest =>
    if b < 128 then some (b, rest)
    else
      match shortvecDecode rest with
      | none => none
      | some (n, rest2) => some ((b - 128) + 128 * n, rest2)

/-- Split off `n` signatures of 64 bytes each. -/
def takeSigs : ℕ → List ℕ → Option (List (List ℕ) × List ℕ)
  | 0, bs => some ([], bs)
  | n + 1, bs =>
    if 64 ≤ bs.length then
      match takeSigs n (bs.drop 64) with
      | none => none
      | some (sigs, rest) => some (bs.take 64 :: sigs, rest)
    else none

/-- Model of `VersionedTransaction.from_bytes`. -/
def parseTx (bytes : List ℕ) : Option VersionedTx :=
  match shortvecDecode bytes with
  | none => none
  | some (n, rest) =>
    match takeSigs n rest with
    | none => none
    | some (sigs, msg) => some ⟨sigs, msg⟩

/-- Model of `bytes(tx)` for a versioned transaction. -/
def serializeTx (tx : VersionedTx) : List ℕ :=
  shortvecEncode tx.signatures.length ++ tx.signatures.flatten ++ tx.message

/-- The signing step shared by `buy_tokens` and `sell_tokens` (lines 184-188
and 266-270): decode the aggregator's blob, sign exactly the message bytes,
rebuild the transaction from the unchanged message plus the single signature,
and re-encode.  It is a pure function: no environment, no network events. -/
def signAndEncode (sign : List ℕ → List ℕ) (blob : List ℕ) :
    Option (List ℕ) :=
  match parseTx blob with
  | none => none
  | some unsigned =>
    some (serializeTx ⟨[sign unsigned.message], unsigned.message⟩)

/-! Section: network events -/

/-- One outbound network call, in program order. -/
inductive Event where
  | balanceCall (pubkey : String)
  | quoteCall (inputMint outputMint amount : String)
  | swapBuildCall (body : SwapData)
  | relaySend (tx : List ℕ)
  | rpcSend (tx : List ℕ) (skipPreflight : Bool) (maxRetries : ℕ)
  | confirmStart (sig : Option String)
  | tokenAccountsCall (owner mint : String)
  | tokenBalanceCall (account : String)
deriving DecidableEq

/-! Section: send_transaction (src/sol_swap.py lines 107-152) -/

/-- Outcome of the POST to the primary Jupiter relay: a network exception
(whose text is the exception message), or an HTTP response with a status and
the optional `txid` field of its JSON body. -/
inductive RelayOutcome where
  | netErr (msg : String)
  | resp (status : ℕ) (txid : Option String)
deriving DecidableEq

/-- Outcome of the fallback `sendTransaction` RPC POST: a network exception,
or an HTTP response with status, raw text, and the optional `error` and
`result` fields of its JSON body. -/
inductive RpcSendOutcome where
  | netErr (msg : String)
  | resp (status : ℕ) (text : String) (error : Option String)
      (result : Option String)
deriving DecidableEq

/-- Model of `send_transaction(encoded_tx)`: try the primary relay; on a non-200
relay response fall back to the RPC provider with `skipPreflight=True` and
`maxRetries=3`.  `Except.error` models an exception propagating out (the
function's own `except` clause logs and re-raises).  A relay response of 200
returns the body's `txid` field even when that field is absent. -/
def send_transaction (relay : RelayOutcome) (rpc : RpcSendOutcome)
    (encoded_tx : List ℕ) : Except String (Option String) × List Event :=
  match relay with
  | .netErr m => (.error m, [.relaySend encoded_tx])
  | .resp status txid =>
    if status = 200 then (.ok txid, [.relaySend encoded_tx])
    else
      let tr := [Event.relaySend encoded_tx, Event.rpcSend encoded_tx true 3]
      match rpc with
      | .netErr m => (.error m, tr)
      | .resp st text err res =>
        if st ≠ 200 then (.error ("Send failed: " ++ text), tr)
        else
          match err with
          | some e => (.error ("Send failed: " ++ e), tr)
          | none =>
            match res with
            | some r => (.ok (some r), tr)
            | none => (.error "KeyError: result", tr)

/-! Section: buy_tokens (src/sol_swap.py lines 154-204) -/

/-- Outcome of `get_quote`: the enclosing `raise` on network failure or
non-2xx (via `raise_for_status`), or the quote JSON treated as an opaque
pass-through value. -/
inductive QuoteOutcome where
  | err (msg : String)
  | ok (body : String)
deriving DecidableEq

/-- Outcome of the POST to the aggregator's swap-build endpoint: a network
exception, or an HTTP response with status, raw text, and the optional
`swapTransaction` field (given as the base64-decoded bytes). -/
inductive SwapBuildOutcome where
  | netErr (msg : String)
  | resp (status : ℕ) (text : String) (swapTransaction : Option (List ℕ))
deriving DecidableEq

/-- Model of `str(int(amount * (10 ** 9)))` from the buy path (line 167). -/
def amount_in_lamports (amount : ℚ) : String :=
  toString (pyTrunc (amount * 10 ^ 9))

/-- The external-world outcomes a run of `buy_tokens` can observe. -/
structure BuyEnv where
  balance : BalanceOutcome
  quote : QuoteOutcome
  swapBuild : SwapBuildOutcome
  relay : RelayOutcome
  rpcSend : RpcSendOutcome
  polls : ℕ → PollResponse

/-- The body of `buy_tokens` up to its `except` clause.  `pubkeyOf` models
the local pubkey derivation (`Keypair.from_bytes(...).pubkey()`) and `sign`
the local Ed25519 signing; both are offline.  `Except.error` is an exception
reaching the `except` clause. -/
def buy_tokens_run (pubkeyOf : String → String) (sign : List ℕ → List ℕ)
    (env : BuyEnv) (contract_address : String) (amount : ℚ)
    (private_key : String) : Except String (Option String) × List Event :=
  let sender_public_key := pubkeyOf private_key
  let sol_balance := get_sol_balance env.balance
  let ev0 := [Event.balanceCall sender_public_key]
  if sol_balance < amount then
    (.error ("Insufficient SOL balance. You have " ++ toString sol_balance ++
        " SOL but trying to spend " ++ toString amount ++ " SOL"), ev0)
  else
    let ev1 := ev0 ++
      [Event.quoteCall SOL_ADDRESS contract_address (amount_in_lamports amount)]
    match env.quote with
    | .err m => (.error m, ev1)
    | .ok quote_response =>
      let swap_data := create_swap_data quote_response sender_public_key
      let ev2 := ev1 ++ [Event.swapBuildCall swap_data]
      match env.swapBuild with
      | .netErr m => (.error m, ev2)
      | .resp status text body =>
        if status ≠ 200 then
          (.error ("Swap transaction failed: " ++ text), ev2)
        else
          match body with
          | none => (.error "KeyError: swapTransaction", ev2)
          | some blob =>
            match signAndEncode sign blob with
            | none => (.error "failed to deserialize transaction", ev2)
            | some encoded_tx =>
              let sendResult := send_transaction env.relay env.rpcSend encoded_tx
              let ev3 := ev2 ++ sendResult.2
              match sendResult.1 with
              | .error m => (.error m, ev3)
              | .ok tx_signature =>
                let ev4 := ev3 ++ [Event.confirmStart tx_signature]
                if (wait_for_transaction_confirmation env.polls 30).1 then
                  (.ok tx_signature, ev4)
                else (.ok none, ev4)

/-- Model of `buy_tokens` as the caller sees it: the `except` clause prints the error
and returns `None`. -/
def buy_tokens (pubkeyOf : String → String) (sign : List ℕ → List ℕ)
    (env : BuyEnv) (contract_address : String) (amount : ℚ)
    (private_key : String) : Option String × List Event :=
  let r := buy_tokens_run pubkeyOf sign env contract_address amount private_key
  (match r.1 with
   | .error _ => none
   | .ok s => s, r.2)

/-! Section: sell_tokens (src/sol_swap.py lines 206-306) -/

/-- One entry of `getTokenAccountsByOwner`'s `result.value` list. -/
structure TokenAccountInfo where
  pubkey : String
  decimals : ℕ
  rawAmount : ℕ
deriving DecidableEq

/-- Outcome of the `getTokenAccountsByOwner` POST: a network exception, a
body with no `result` field, or the parsed account list. -/
inductive TokenAccountsOutcome where
  | netErr (msg : String)
  | malformed
  | accounts (l : List TokenAccountInfo)
deriving DecidableEq

/-- Amount resolution of `sell_tokens` (lines 235-236): a requested amount of
zero, or one exceeding the current balance, is replaced by the full current
balance. -/
def resolveSellAmount (amount current_balance : ℚ) : ℚ :=
  if amount = 0 ∨ amount > current_balance then current_balance else amount

/-- Model of `str(int(amount * (10 ** token_decimals)))` from the sell path. -/
def amount_in_smallest_unit (amount : ℚ) (decimals : ℕ) : String :=
  toString (pyTrunc (amount * 10 ^ decimals))

/-- The external-world outcomes a run of `sell_tokens` can observe;
`verify` is a raised exception text during the post-trade balance check
(`none` when that request completes). -/
structure SellEnv where
  tokenAccounts : TokenAccountsOutcome
  balance : BalanceOutcome
  quote : QuoteOutcome
  swapBuild : SwapBuildOutcome
  relay : RelayOutcome
  rpcSend : RpcSendOutcome
  polls : ℕ → PollResponse
  verify : Option String

/-- The body of `sell_tokens` up to its `except` clause. -/
def sell_tokens_run (pubkeyOf : String → String) (sign : List ℕ → List ℕ)
    (env : SellEnv) (contract_address : String) (amount0 : ℚ)
    (private_key : String) : Except String (Option String) × List Event :=
  let sender_public_key := pubkeyOf private_key
  let ev0 := [Event.tokenAccountsCall sender_public_key contract_address]
  match env.tokenAccounts with
  | .netErr m => (.error m, ev0)
  | .malformed => (.error "No token account found", ev0)
  | .accounts [] => (.error "No token account found", ev0)
  | .accounts (acc :: _) =>
    let token_decimals := acc.decimals
    let current_balance : ℚ := (acc.rawAmount : ℚ) / (10 ^ token_decimals : ℚ)
    let amount := resolveSellAmount amount0 current_balance
    if amount ≤ 0 then (.error "No tokens to sell", ev0)
    else
      let ev1 := ev0 ++ [Event.balanceCall sender_public_key]
      let sol_balance := get_sol_balance env.balance
      if sol_balance < 2 / 1000 then
        (.error ("Insufficient SOL balance for transaction fees. You have " ++
            toString sol_balance ++ " SOL"), ev1)
      else
        let ev2 := ev1 ++ [Event.quoteCall contract_address SOL_ADDRESS
            (amount_in_smallest_unit amount token_decimals)]
        match env.quote with
        | .err m => (.error m, ev2)
        | .ok quote_response =>
          let swap_data := create_swap_data quote_response sender_public_key
          let ev3 := ev2 ++ [Event.swapBuildCall swap_data]
          match env.swapBuild with
          | .netErr m => (.error m, ev3)
          | .resp status text body =>
            if status ≠ 200 then
              (.error ("Swap transaction failed: " ++ text), ev3)
            else
              match body with
              | none => (.error "KeyError: swapTransaction", ev3)
              | some blob =>
                match signAndEncode sign blob with
                | none => (.error "failed to deserialize transaction", ev3)
                | some encoded_tx =>
                  let sendResult :=
                    send_transaction env.relay env.rpcSend encoded_tx
                  let ev4 := ev3 ++ sendResult.2
                  match sendResult.1 with
                  | .error m => (.error m, ev4)
                  | .ok tx_signature =>
                    let ev5 := ev4 ++ [Event.confirmStart tx_signature]
                    if (wait_for_transaction_confirmation env.polls 30).1 then
                      let ev6 := ev5 ++ [Event.tokenBalanceCall acc.pubkey]
                      match env.verify with
                      | some m => (.error m, ev6)
                      | none => (.ok tx_signature, ev6)
                    else (.ok none, ev5)

/-- Model of `sell_tokens` as the caller sees it: the `except` clause prints the error
and returns `None`. -/
def sell_tokens (pubkeyOf : String → String) (sign : List ℕ → List ℕ)
    (env : SellEnv) (contract_address : String) (amount0 : ℚ)
    (private_key : String) : Option String × List Event :=
  let r := sell_tokens_run pubkeyOf sign env contract_address amount0 private_key
  (match r.1 with
   | .error _ => none
   | .ok s => s, r.2)

/-! Section: helper lemmas -/

theorem pyTrunc_intCast (n : ℤ) : pyTrunc ((n : ℤ) : ℚ) = n := by
  simp [pyTrunc]

theorem pyTrunc_eq_floor (q : ℚ) (h : 0 ≤ q) : pyTrunc q = ⌊q⌋ := by
  rw [pyTrunc, Int.tdiv_eq_ediv (Rat.num_nonneg.mpr h) (by positivity),
    Rat.floor_def]

theorem pyTrunc_eq_zero (q : ℚ) (h0 : 0 ≤ q) (h1 : q < 1) : pyTrunc q = 0 := by
  rw [pyTrunc_eq_floor q h0]
  exact Int.floor_eq_zero_iff.mpr ⟨h0, h1⟩

theorem shortvecEncode_one : shortvecEncode 1 = [1] := by
  rw [shortvecEncode]
  norm_num

theorem serializeTx_single (s m : List ℕ) :
    serializeTx ⟨[s], m⟩ = 1 :: (s ++ m) := by
  simp [serializeTx, shortvecEncode_one]

theorem takeSigs_one (bs : List ℕ) (h : 64 ≤ bs.length) :
    takeSigs 1 bs = some ([bs.take 64], bs.drop 64) := by
  show takeSigs (0 + 1) bs = some ([bs.take 64], bs.drop 64)
  simp [takeSigs, h]

theorem parseTx_single (s m : List ℕ) (hs : s.length = 64) :
    parseTx (1 :: (s ++ m)) = some ⟨[s], m⟩ := by
  have hd : shortvecDecode (1 :: (s ++ m)) = some (1, s ++ m) := by
    simp [shortvecDecode]
  have hlen : 64 ≤ (s ++ m).length := by
    simp [hs]
  have htake : (s ++ m).take 64 = s := by
    rw [← hs]
    exact List.take_left s m
  have hdrop : (s ++ m).drop 64 = m := by
    rw [← hs]
    exact List.drop_left s m
  rw [parseTx, hd]
  dsimp only
  rw [takeSigs_one (s ++ m) hlen]
  dsimp only
  rw [htake, hdrop]

theorem parse_serialize_single (s m : List ℕ) (hs : s.length = 64) :
    parseTx (serializeTx ⟨[s], m⟩) = some ⟨[s], m⟩ := by
  rw [serializeTx_single]
  exact parseTx_single s m hs

theorem waitGo_timeout (polls : ℕ → PollResponse) (fuel : ℕ) :
    ∀ i, (∀ k, k < fuel → pollResult (polls (i + k)) = none) →
      waitGo polls i fuel = (false, i + fuel) := by
  induction fuel with
  | zero => intro i _; simp [waitGo]
  | succ n ih =>
    intro i h
    have h0 : pollResult (polls i) = none := by
      simpa using h 0 (Nat.succ_pos n)
    have hrest : ∀ k, k < n → pollResult (polls (i + 1 + k)) = none := by
      intro k hk
      have := h (k + 1) (by omega)
      rwa [show i + (k + 1) = i + 1 + k by omega] at this
    have harith : i + 1 + n = i + (n + 1) := by omega
    rw [waitGo, h0, ih (i + 1) hrest, harith]

theorem waitGo_found (polls : ℕ → PollResponse) (fuel : ℕ) :
    ∀ i j err, j < fuel → (∀ k, k < j → pollResult (polls (i + k)) = none) →
      pollResult (polls (i + j)) = some err →
      waitGo polls i fuel = (err.isNone, i + j + 1) := by
  induction fuel with
  | zero => intro i j err hj _ _; exact absurd hj (Nat.not_lt_zero j)
  | succ n ih =>
    intro i j err hj hbefore hfound
    cases j with
    | zero =>
      rw [waitGo]
      simp only [Nat.add_zero] at hfound
      rw [hfound]
    | succ j' =>
      have h0 : pollResult (polls i) = none := by
        simpa using hbefore 0 (Nat.succ_pos j')
      have hbefore' : ∀ k, k < j' → pollResult (polls (i + 1 + k)) = none := by
        intro k hk
        have := hbefore (k + 1) (by omega)
        rwa [show i + (k + 1) = i + 1 + k by omega] at this
      have hfound' : pollResult (polls (i + 1 + j')) = some err := by
        rwa [show i + (j' + 1) = i + 1 + j' by omega] at hfound
      have harith : i + 1 + j' + 1 = i + (j' + 1) + 1 := by omega
      rw [waitGo, h0, ih (i + 1) j' err (by omega) hbefore' hfound', harith]

/-- Once the balance check passes, the trace of `buy_tokens` begins with the
balance call and the quote call, whatever the environment does afterwards. -/
theorem buy_trace_extends (pubkeyOf : String → String)
    (sign : List ℕ → List ℕ) (env : BuyEnv) (contract_address : String)
    (amount : ℚ) (private_key : String)
    (hbal : ¬ get_sol_balance env.balance < amount) :
    ∃ t, (buy_tokens_run pubkeyOf sign env contract_address amount
        private_key).2 =
      [Event.balanceCall (pubkeyOf private_key),
       Event.quoteCall SOL_ADDRESS contract_address
         (amount_in_lamports amount)] ++ t := by
  unfold buy_tokens_run
  rw [if_neg hbal]
  rcases env.quote with m | q
  · exact ⟨[], rfl⟩
  rcases env.swapBuild with m | ⟨st, text, body⟩
  · exact ⟨_, rfl⟩
  dsimp only
  split
  · exact ⟨_, rfl⟩
  rcases body with _ | blob
  · exact ⟨_, rfl⟩
  dsimp only
  rcases signAndEncode sign blob with _ | encoded
  · exact ⟨_, rfl⟩
  dsimp only
  rcases (send_transaction env.relay env.rpcSend encoded).1 with m | sigOpt
  · simp only [List.append_assoc]
    exact ⟨_, rfl⟩
  · rw [apply_ite Prod.snd]
    dsimp only
    rw [ite_self]
    simp only [List.append_assoc]
    exact ⟨_, rfl⟩

/-- Once a token account is found and the resolved sell amount is positive,
the sell trace begins with the token-account call and the fee balance call. -/
theorem sell_trace_extends (pubkeyOf : String → String)
    (sign : List ℕ → List ℕ) (env : SellEnv) (contract_address : String)
    (amount0 : ℚ) (private_key : String) (acc : TokenAccountInfo)
    (rest : List TokenAccountInfo)
    (hacc : env.tokenAccounts = .accounts (acc :: rest))
    (hres : ¬ resolveSellAmount amount0
      ((acc.rawAmount : ℚ) / (10 ^ acc.decimals : ℚ)) ≤ 0) :
    ∃ t, (sell_tokens_run pubkeyOf sign env contract_address amount0
        private_key).2 =
      [Event.tokenAccountsCall (pubkeyOf private_key) contract_address,
       Event.balanceCall (pubkeyOf private_key)] ++ t := by
  simp only [sell_tokens_run, hacc]
  rw [if_neg hres]
  split
  · exact ⟨[], rfl⟩
  rcases env.quote with m | q
  · exact ⟨_, rfl⟩
  rcases env.swapBuild with m | ⟨st, text, body⟩
  · exact ⟨_, rfl⟩
  dsimp only
  split
  · exact ⟨_, rfl⟩
  rcases body with _ | blob
  · exact ⟨_, rfl⟩
  dsimp only
  rcases signAndEncode sign blob with _ | encoded
  · exact ⟨_, rfl⟩
  dsimp only
  rcases (send_transaction env.relay env.rpcSend encoded).1 with m | sigOpt
  · simp only [List.append_assoc]
    exact ⟨_, rfl⟩
  dsimp only
  by_cases hw : (wait_for_transaction_confirmation env.polls 30).1 = true
  · rw [if_pos hw]
    rcases env.verify with _ | m
    · simp only [List.append_assoc]
      exact ⟨_, rfl⟩
    · simp only [List.append_assoc]
      exact ⟨_, rfl⟩
  · rw [if_neg hw]
    simp only [List.append_assoc]
    exact ⟨_, rfl⟩

/-- Once a token account is found, the resolved amount is positive, and the
fee check passes, the sell trace reaches the quote request for the resolved
amount, scaled by the discovered decimals. -/
theorem sell_trace_quote (pubkeyOf : String → String)
    (sign : List ℕ → List ℕ) (env : SellEnv) (contract_address : String)
    (amount0 : ℚ) (private_key : String) (acc : TokenAccountInfo)
    (rest : List TokenAccountInfo)
    (hacc : env.tokenAccounts = .accounts (acc :: rest))
    (hres : ¬ resolveSellAmount amount0
      ((acc.rawAmount : ℚ) / (10 ^ acc.decimals : ℚ)) ≤ 0)
    (hfee : ¬ get_sol_balance env.balance < 2 / 1000) :
    ∃ t, (sell_tokens_run pubkeyOf sign env contract_address amount0
        private_key).2 =
      [Event.tokenAccountsCall (pubkeyOf private_key) contract_address,
       Event.balanceCall (pubkeyOf private_key),
       Event.quoteCall contract_address SOL_ADDRESS
         (amount_in_smallest_unit (resolveSellAmount amount0
           ((acc.rawAmount : ℚ) / (10 ^ acc.decimals : ℚ))) acc.decimals)]
        ++ t := by
  simp only [sell_tokens_run, hacc]
  rw [if_neg hres, if_neg hfee]
  rcases env.quote with m | q
  · exact ⟨_, rfl⟩
  rcases env.swapBuild with m | ⟨st, text, body⟩
  · exact ⟨_, rfl⟩
  dsimp only
  split
  · exact ⟨_, rfl⟩
  rcases body with _ | blob
  · exact ⟨_, rfl⟩
  dsimp only
  rcases signAndEncode sign blob with _ | encoded
  · exact ⟨_, rfl⟩
  dsimp only
  rcases (send_transaction env.relay env.rpcSend encoded).1 with m | sigOpt
  · simp only [List.append_assoc]
    exact ⟨_, rfl⟩
  dsimp only
  by_cases hw : (wait_for_transaction_confirmation env.polls 30).1 = true
  · rw [if_pos hw]
    rcases env.verify with _ | m
    · simp only [List.append_assoc]
      exact ⟨_, rfl⟩
    · simp only [List.append_assoc]
      exact ⟨_, rfl⟩
  · rw [if_neg hw]
    simp only [List.append_assoc]
    exact ⟨_, rfl⟩

/-! Section: claims -/

/-- C1: in `wait_for_transaction_confirmation`, a network error, a non-200
response, or a null `result` each count as "no result yet" and are never
fatal; when the first poll with a result occurs at index `j`, the function
returns at that poll with success exactly when the result's error field is
empty and failure when it is non-empty; and when all `max_retries` polls
yield no result it returns failure after exactly `max_retries` polls, with
no early exit. -/
theorem c1_confirmation_poller (polls : ℕ → PollResponse) (max_retries : ℕ) :
    pollResult .netErr = none
  ∧ (∀ status result, status ≠ 200 → pollResult (.resp status result) = none)
  ∧ (∀ status, pollResult (.resp status none) = none)
  ∧ ((∀ i, i < max_retries → pollResult (polls i) = none) →
      wait_for_transaction_confirmation polls max_retries =
        (false, max_retries))
  ∧ (∀ j err, j < max_retries → (∀ i, i < j → pollResult (polls i) = none) →
      pollResult (polls j) = some err →
      wait_for_transaction_confirmation polls max_retries =
        (err.isNone, j + 1)) := by
  refine ⟨rfl, ?_, ?_, ?_, ?_⟩
  · intro status result h
    simp [pollResult, h]
  · intro status
    simp [pollResult]
  · intro h
    have := waitGo_timeout polls max_retries 0
      (fun k hk => by simpa using h k hk)
    simpa [wait_for_transaction_confirmation] using this
  · intro j err hj hbefore hfound
    have := waitGo_found polls max_retries 0 j err hj
      (fun k hk => by simpa using hbefore k hk) (by simpa using hfound)
    simpa [wait_for_transaction_confirmation] using this

/-- A concrete poll sequence: a network error, a 503, a null result, then a
result carrying a non-empty error field. -/
def c1Polls : ℕ → PollResponse := fun i =>
  if i = 0 then .netErr
  else if i = 1 then .resp 503 none
  else if i = 2 then .resp 200 none
  else .resp 200 (some (some "InstructionError"))

/-- Witness for C1: on `c1Polls` the poller survives the three empty polls,
stops at poll index 3 (its fourth poll), and reports failure because the
result's error field is non-empty. -/
theorem c1_confirmation_poller_witness :
    wait_for_transaction_confirmation c1Polls 30 = (false, 4) :=
  (c1_confirmation_poller c1Polls 30).2.2.2.2 3 (some "InstructionError")
    (by omega) (fun i hi => by interval_cases i <;> rfl) rfl

/-- C2: in `sell_tokens`, once the token account and balance are discovered,
a requested amount of zero, or one strictly exceeding the current balance,
is replaced by the full current balance (and any other request is kept
as-is); the run aborts at the amount check, with the "No tokens to sell"
error and no further network call, exactly when the resolved amount is
still ≤ 0; and a positive resolved amount (with the fee check passing) is
the amount the quote is requested for. -/
theorem c2_sell_amount_resolution (pubkeyOf : String → String)
    (sign : List ℕ → List ℕ) (env : SellEnv) (contract_address : String)
    (amount0 : ℚ) (private_key : String) (acc : TokenAccountInfo)
    (rest : List TokenAccountInfo) (current_balance : ℚ)
    (hacc : env.tokenAccounts = .accounts (acc :: rest))
    (hcb : current_balance = (acc.rawAmount : ℚ) / (10 ^ acc.decimals : ℚ)) :
    ((amount0 = 0 ∨ amount0 > current_balance) →
      resolveSellAmount amount0 current_balance = current_balance)
  ∧ (¬ (amount0 = 0 ∨ amount0 > current_balance) →
      resolveSellAmount amount0 current_balance = amount0)
  ∧ (sell_tokens_run pubkeyOf sign env contract_address amount0 private_key =
      (.error "No tokens to sell",
       [Event.tokenAccountsCall (pubkeyOf private_key) contract_address]) ↔
      resolveSellAmount amount0 current_balance ≤ 0)
  ∧ (¬ resolveSellAmount amount0 current_balance ≤ 0 →
      ¬ get_sol_balance env.balance < 2 / 1000 →
      Event.quoteCall contract_address SOL_ADDRESS
        (amount_in_smallest_unit (resolveSellAmount amount0 current_balance)
          acc.decimals) ∈
        (sell_tokens_run pubkeyOf sign env contract_address amount0
          private_key).2) := by
  subst hcb
  refine ⟨?_, ?_, ?_, ?_⟩
  · intro hcase
    rw [resolveSellAmount, if_pos hcase]
  · intro hcase
    rw [resolveSellAmount, if_neg hcase]
  · constructor
    · intro heq
      by_contra hres
      obtain ⟨t, ht⟩ := sell_trace_extends pubkeyOf sign env contract_address
        amount0 private_key acc rest hacc hres
      have hlen := congrArg (fun p => p.2.length) heq
      dsimp only at hlen
      rw [ht] at hlen
      simp at hlen
    · intro hle
      simp only [sell_tokens_run, hacc]
      rw [if_pos hle]
  · intro hres hfee
    obtain ⟨t, ht⟩ := sell_trace_quote pubkeyOf sign env contract_address
      amount0 private_key acc rest hacc hres hfee
    rw [ht]
    simp

def constPubkey : String → String := fun _ => "PK"

def nullSign : List ℕ → List ℕ := fun _ => []

/-- A token account holding 100 tokens at 6 decimals. -/
def c2Acc : TokenAccountInfo :=
  { pubkey := "TOKACC", decimals := 6, rawAmount := 100000000 }

/-- A `SellEnv` that finds `c2Acc` and whose other collaborators are down. -/
def c2Env : SellEnv :=
  { tokenAccounts := .accounts [c2Acc]
    balance := .netErr
    quote := .err "quote down"
    swapBuild := .netErr "swap down"
    relay := .netErr "relay down"
    rpcSend := .netErr "rpc down"
    polls := fun _ => .netErr
    verify := none }

/-- Witness for C2: a requested amount of 0 against a balance of 100 tokens
resolves to the full balance, and the run does not abort at the amount
check because the resolved amount is positive. -/
theorem c2_sell_amount_resolution_witness :
    resolveSellAmount 0 ((100000000 : ℚ) / (10 ^ 6 : ℚ)) =
      (100000000 : ℚ) / (10 ^ 6 : ℚ)
  ∧ (sell_tokens_run constPubkey nullSign c2Env "MINT" 0 "KEY" =
      (.error "No tokens to sell",
       [Event.tokenAccountsCall (constPubkey "KEY") "MINT"]) ↔
      resolveSellAmount 0 ((100000000 : ℚ) / (10 ^ 6 : ℚ)) ≤ 0) := by
  have h := c2_sell_amount_resolution constPubkey nullSign c2Env "MINT" 0
    "KEY" c2Acc [] ((100000000 : ℚ) / (10 ^ 6 : ℚ)) rfl rfl
  exact ⟨h.1 (Or.inl rfl), h.2.2.1⟩

/-- C3: whenever the checked SOL balance is strictly below the requested
spend, `buy_tokens` raises the insufficient-funds error, the quote endpoint
is never contacted in that run, and the operation returns `None`. -/
theorem c3_buy_insufficient_balance (pubkeyOf : String → String)
    (sign : List ℕ → List ℕ) (env : BuyEnv) (contract_address : String)
    (amount : ℚ) (private_key : String)
    (h : get_sol_balance env.balance < amount) :
    (buy_tokens_run pubkeyOf sign env contract_address amount private_key).1 =
      .error ("Insufficient SOL balance. You have " ++
        toString (get_sol_balance env.balance) ++
        " SOL but trying to spend " ++ toString amount ++ " SOL")
  ∧ (∀ im om a, Event.quoteCall im om a ∉
      (buy_tokens_run pubkeyOf sign env contract_address amount
        private_key).2)
  ∧ (buy_tokens pubkeyOf sign env contract_address amount private_key).1 =
      none := by
  have hrun : buy_tokens_run pubkeyOf sign env contract_address amount
      private_key =
      (.error ("Insufficient SOL balance. You have " ++
        toString (get_sol_balance env.balance) ++
        " SOL but trying to spend " ++ toString amount ++ " SOL"),
       [Event.balanceCall (pubkeyOf private_key)]) := by
    simp only [buy_tokens_run]
    rw [if_pos h]
  refine ⟨by rw [hrun], ?_, ?_⟩
  · intro im om a
    rw [hrun]
    simp
  · simp only [buy_tokens]
    rw [hrun]

/-- A `BuyEnv` whose balance query succeeds with 0.5 SOL and whose other
collaborators are all down. -/
def lowBalanceEnv : BuyEnv :=
  { balance := .resp 200 (some 500000000)
    quote := .err "quote down"
    swapBuild := .netErr "swap down"
    relay := .netErr "relay down"
    rpcSend := .netErr "rpc down"
    polls := fun _ => .netErr }

/-- Witness for C3: with a 0.5 SOL balance and a requested spend of 1 SOL,
the buy aborts with the insufficient-funds error and no quote request. -/
theorem c3_buy_insufficient_balance_witness :
    (buy_tokens_run constPubkey nullSign lowBalanceEnv "MINT" 1 "KEY").1 =
      .error ("Insufficient SOL balance. You have " ++
        toString (get_sol_balance lowBalanceEnv.balance) ++
        " SOL but trying to spend " ++ toString (1 : ℚ) ++ " SOL")
  ∧ (∀ im om a, Event.quoteCall im om a ∉
      (buy_tokens_run constPubkey nullSign lowBalanceEnv "MINT" 1 "KEY").2)
  ∧ (buy_tokens constPubkey nullSign lowBalanceEnv "MINT" 1 "KEY").1 =
      none :=
  c3_buy_insufficient_balance constPubkey nullSign lowBalanceEnv "MINT" 1
    "KEY" (by norm_num [lowBalanceEnv, get_sol_balance])

/-- C7: `get_sol_balance` divides the raw lamport value by 10^9 on a 200
response with a `result` field, and returns 0 without raising on a network
exception, a non-200 status, or a response with no `result` field. -/
theorem c7_get_sol_balance (v : ℤ) (status : ℕ) :
    get_sol_balance (.resp 200 (some v)) = (v : ℚ) / 10 ^ 9
  ∧ get_sol_balance .netErr = 0
  ∧ (status ≠ 200 → ∀ value, get_sol_balance (.resp status value) = 0)
  ∧ get_sol_balance (.resp status none) = 0 := by
  refine ⟨by simp [get_sol_balance], rfl, ?_, by simp [get_sol_balance]⟩
  intro h value
  cases value with
  | none => simp [get_sol_balance]
  | some w => simp [get_sol_balance, h]

/-- Witness for C7: 5000000000 raw lamports at status 200 yield 5, and the
same body at status 503 yields 0. -/
theorem c7_get_sol_balance_witness :
    get_sol_balance (.resp 200 (some 5000000000)) = 5
  ∧ get_sol_balance (.resp 503 (some 5000000000)) = 0 := by
  have h := c7_get_sol_balance 5000000000 503
  refine ⟨?_, h.2.2.1 (by decide) (some 5000000000)⟩
  rw [h.1]
  norm_num

/-- C4: the signing step decodes the aggregator's blob, leaves the message
bytes byte-identical, and attaches exactly one signature computed over
exactly those message bytes; re-parsing the re-encoded transaction recovers
the unchanged message.  (`signAndEncode` is a pure function of the blob:
the step performs no network call.) -/
theorem c4_signing_round_trip (sign : List ℕ → List ℕ)
    (h64 : ∀ msg, (sign msg).length = 64) (blob : List ℕ)
    (unsigned : VersionedTx) (hparse : parseTx blob = some unsigned) :
    signAndEncode sign blob =
      some (serializeTx ⟨[sign unsigned.message], unsigned.message⟩)
  ∧ parseTx (serializeTx ⟨[sign unsigned.message], unsigned.message⟩) =
      some ⟨[sign unsigned.message], unsigned.message⟩ := by
  constructor
  · simp [signAndEncode, hparse]
  · exact parse_serialize_single _ _ (h64 unsigned.message)

/-- A signer producing a fixed 64-byte signature. -/
def c4Sign : List ℕ → List ℕ := fun _ => List.replicate 64 7

/-- An unsigned transaction blob: one 64-byte placeholder signature followed
by the three message bytes 9, 9, 9. -/
def c4Blob : List ℕ := 1 :: (List.replicate 64 0 ++ [9, 9, 9])

/-- Witness for C4 on `c4Blob`: the signed transaction re-parses to the
original message `[9, 9, 9]` with the single fresh signature. -/
theorem c4_signing_round_trip_witness :
    signAndEncode c4Sign c4Blob =
      some (serializeTx ⟨[c4Sign [9, 9, 9]], [9, 9, 9]⟩)
  ∧ parseTx (serializeTx ⟨[c4Sign [9, 9, 9]], [9, 9, 9]⟩) =
      some ⟨[c4Sign [9, 9, 9]], [9, 9, 9]⟩ :=
  c4_signing_round_trip c4Sign (fun msg => by simp [c4Sign]) c4Blob
    ⟨[List.replicate 64 0], [9, 9, 9]⟩
    (parseTx_single (List.replicate 64 0) [9, 9, 9] (by simp))

/-- C5 counterexample: when the POST to the primary relay raises a network
exception (an attempt that certainly "does not return success"), the
function does NOT fall back to the RPC provider — it re-raises at once,
with no `rpcSend` call in the trace — even though the fallback would have
succeeded here.  This refutes the claimed "if and only if". -/
theorem c5_counterexample :
    send_transaction (.netErr "Connection refused")
      (.resp 200 "ok" none (some "SIG")) [0] =
      (.error "Connection refused", [Event.relaySend [0]]) := rfl

/-- The fallback stage of `send_transaction`, factored per RPC outcome. -/
theorem send_transaction_fallback_eq (s : ℕ) (txid : Option String)
    (rpc : RpcSendOutcome) (tx : List ℕ) (hs : ¬ s = 200) :
    send_transaction (.resp s txid) rpc tx =
      ((match rpc with
        | .netErr m => .error m
        | .resp st text err res =>
          if st ≠ 200 then .error ("Send failed: " ++ text)
          else
            match err with
            | some e => .error ("Send failed: " ++ e)
            | none =>
              match res with
              | some r => Except.ok (some r)
              | none => .error "KeyError: result"),
       [Event.relaySend tx, Event.rpcSend tx true 3]) := by
  simp only [send_transaction]
  rw [if_neg hs]
  rcases rpc with m | ⟨st, text, err, res⟩
  · rfl
  dsimp only
  by_cases hst : st ≠ 200
  · rw [if_pos hst, if_pos hst]
  · rw [if_neg hst, if_neg hst]
    rcases err with _ | e
    · rcases res with _ | r <;> rfl
    · rfl

/-- C5 (amended): `send_transaction` always posts to the primary relay
first; it falls back to the RPC provider's `sendTransaction` — with
`skipPreflight=true` and `maxRetries=3` — exactly when the primary attempt
returns an HTTP response with a non-200 status (a network exception during
the primary attempt propagates immediately, with no fallback); a 200 relay
response returns its `txid` field; a non-200 fallback response, or a
fallback body with an `error` field, raises an exception surfacing the
underlying error text; a fallback body with a `result` field returns that
signature. -/
theorem c5_send_transaction_fallback (relay : RelayOutcome)
    (rpc : RpcSendOutcome) (tx : List ℕ) :
    (send_transaction relay rpc tx).2.head? = some (.relaySend tx)
  ∧ ((∃ t sp mr, Event.rpcSend t sp mr ∈ (send_transaction relay rpc tx).2) ↔
      ∃ s txid, relay = .resp s txid ∧ s ≠ 200)
  ∧ (∀ t sp mr, Event.rpcSend t sp mr ∈ (send_transaction relay rpc tx).2 →
      t = tx ∧ sp = true ∧ mr = 3)
  ∧ (∀ txid, relay = .resp 200 txid →
      (send_transaction relay rpc tx).1 = .ok txid)
  ∧ (∀ s txid st text err res, relay = .resp s txid → s ≠ 200 →
      rpc = .resp st text err res → st ≠ 200 →
      (send_transaction relay rpc tx).1 = .error ("Send failed: " ++ text))
  ∧ (∀ s txid text e res, relay = .resp s txid → s ≠ 200 →
      rpc = .resp 200 text (some e) res →
      (send_transaction relay rpc tx).1 = .error ("Send failed: " ++ e))
  ∧ (∀ s txid text r, relay = .resp s txid → s ≠ 200 →
      rpc = .resp 200 text none (some r) →
      (send_transaction relay rpc tx).1 = .ok (some r)) := by
  rcases relay with m | ⟨s, txid⟩
  · refine ⟨rfl, ?_, ?_, ?_, ?_, ?_, ?_⟩
    · simp [send_transaction]
    · intro t sp mr h
      simp [send_transaction] at h
    · intro txid h
      exact absurd h (by simp)
    · intro s txid st text err res h
      exact absurd h (by simp)
    · intro s txid text e res h
      exact absurd h (by simp)
    · intro s txid text r h
      exact absurd h (by simp)
  by_cases hs : s = 200
  · subst hs
    have hsend : send_transaction (.resp 200 txid) rpc tx =
        (.ok txid, [Event.relaySend tx]) := by
      simp [send_transaction]
    refine ⟨by rw [hsend]; rfl, ?_, ?_, ?_, ?_, ?_, ?_⟩
    · rw [hsend]
      simp
    · intro t sp mr h
      rw [hsend] at h
      simp at h
    · intro txid' h
      cases h
      rw [hsend]
    · intro s' txid' st text err res h hne
      cases h
      exact absurd rfl hne
    · intro s' txid' text e res h hne
      cases h
      exact absurd rfl hne
    · intro s' txid' text r h hne
      cases h
      exact absurd rfl hne
  · have hsend := send_transaction_fallback_eq s txid rpc tx hs
    refine ⟨by rw [hsend]; rfl, ?_, ?_, ?_, ?_, ?_, ?_⟩
    · rw [hsend]
      simp only [List.mem_cons, List.not_mem_nil]
      constructor
      · intro _
        exact ⟨s, txid, rfl, hs⟩
      · intro _
        exact ⟨tx, true, 3, by simp⟩
    · intro t sp mr h
      rw [hsend] at h
      simp at h
      exact ⟨h.1, h.2.1, h.2.2⟩
    · intro txid' h
      cases h
      exact absurd rfl hs
    · intro s' txid' st text err res h hne hrpc hst
      cases h
      rw [hsend, hrpc]
      dsimp only
      rw [if_pos hst]
    · intro s' txid' text e res h hne hrpc
      cases h
      rw [hsend, hrpc]
      simp
    · intro s' txid' text r h hne hrpc
      cases h
      rw [hsend, hrpc]
      simp

/-- Witness for C5 at a concrete input: a 500 from the relay triggers the
fallback (with `skipPreflight=true`, `maxRetries=3` recorded in the trace),
and the RPC `result` field is returned. -/
theorem c5_send_transaction_fallback_witness :
    (send_transaction (.resp 500 none)
      (.resp 200 "body" none (some "SIG")) [1]).1 = .ok (some "SIG")
  ∧ (∃ t sp mr, Event.rpcSend t sp mr ∈
      (send_transaction (.resp 500 none)
        (.resp 200 "body" none (some "SIG")) [1]).2) := by
  have h := c5_send_transaction_fallback (.resp 500 none)
    (.resp 200 "body" none (some "SIG")) [1]
  exact ⟨h.2.2.2.2.2.2 500 none "body" "SIG" rfl (by decide) rfl,
    h.2.1.mpr ⟨500, none, rfl, by decide⟩⟩

/-- Once the balance check passes and the quote succeeds, the buy trace
reaches the swap-build POST whose body is `create_swap_data` applied to the
quote response and the sender's public key. -/
theorem buy_trace_swap_build (pubkeyOf : String → String)
    (sign : List ℕ → List ℕ) (env : BuyEnv) (contract_address : String)
    (amount : ℚ) (private_key : String) (q : String)
    (hbal : ¬ get_sol_balance env.balance < amount)
    (hq : env.quote = .ok q) :
    ∃ t, (buy_tokens_run pubkeyOf sign env contract_address amount
        private_key).2 =
      [Event.balanceCall (pubkeyOf private_key),
       Event.quoteCall SOL_ADDRESS contract_address
         (amount_in_lamports amount),
       Event.swapBuildCall (create_swap_data q (pubkeyOf private_key))]
        ++ t := by
  simp only [buy_tokens_run, hq]
  rw [if_neg hbal]
  rcases env.swapBuild with m | ⟨st, text, body⟩
  · exact ⟨[], rfl⟩
  dsimp only
  split
  · exact ⟨_, rfl⟩
  rcases body with _ | blob
  · exact ⟨_, rfl⟩
  dsimp only
  rcases signAndEncode sign blob with _ | encoded
  · exact ⟨_, rfl⟩
  dsimp only
  rcases (send_transaction env.relay env.rpcSend encoded).1 with m | sigOpt
  · simp only [List.append_assoc]
    exact ⟨_, rfl⟩
  dsimp only
  by_cases hw : (wait_for_transaction_confirmation env.polls 30).1 = true
  · rw [if_pos hw]
    simp only [List.append_assoc]
    exact ⟨_, rfl⟩
  · rw [if_neg hw]
    simp only [List.append_assoc]
    exact ⟨_, rfl⟩

/-- C6: `create_swap_data` sets `wrapUnwrapSOL=true`,
`useVersionedTransaction=true`, `dynamicComputeUnitLimit=true`,
`dynamicSlippage.maxBps=300`, and a priority fee of `maxLamports=10000000`
at level "veryHigh" with `global=false`, passing the quote response and the
sender key through; and that exact body is what the buy path posts to the
swap-build endpoint when the balance check passes (and the quote request
delivers a quote). -/
theorem c6_swap_build_body (q pk : String) (pubkeyOf : String → String)
    (sign : List ℕ → List ℕ) (env : BuyEnv) (contract_address : String)
    (amount : ℚ) (private_key : String)
    (hbal : ¬ get_sol_balance env.balance < amount)
    (hq : env.quote = .ok q) :
    (create_swap_data q pk).wrapUnwrapSOL = true
  ∧ (create_swap_data q pk).useVersionedTransaction = true
  ∧ (create_swap_data q pk).dynamicComputeUnitLimit = true
  ∧ (create_swap_data q pk).dynamicSlippageMaxBps = 300
  ∧ (create_swap_data q pk).prioritizationFeeLamports =
      { maxLamports := 10000000, priorityLevel := "veryHigh",
        globalFlag := false }
  ∧ (create_swap_data q pk).quoteResponse = q
  ∧ (create_swap_data q pk).userPublicKey = pk
  ∧ Event.swapBuildCall (create_swap_data q (pubkeyOf private_key)) ∈
      (buy_tokens_run pubkeyOf sign env contract_address amount
        private_key).2 := by
  obtain ⟨t, ht⟩ := buy_trace_swap_build pubkeyOf sign env contract_address
    amount private_key q hbal hq
  refine ⟨rfl, rfl, rfl, rfl, rfl, rfl, rfl, ?_⟩
  rw [ht]
  simp

/-- A `BuyEnv` whose balance lookup fails (yielding 0) and whose quote
succeeds; everything later is down. -/
def c6Env : BuyEnv :=
  { balance := .netErr
    quote := .ok "QUOTE"
    swapBuild := .netErr "swap down"
    relay := .netErr "relay down"
    rpcSend := .netErr "rpc down"
    polls := fun _ => .netErr }

/-- Witness for C6: with a requested spend of 0 the balance check passes,
and the swap-build POST carries the fixed flags and fee configuration. -/
theorem c6_swap_build_body_witness :
    (create_swap_data "QUOTE" "PK").dynamicSlippageMaxBps = 300
  ∧ Event.swapBuildCall (create_swap_data "QUOTE" (constPubkey "KEY")) ∈
      (buy_tokens_run constPubkey nullSign c6Env "MINT" 0 "KEY").2 := by
  have h := c6_swap_build_body "QUOTE" "PK" constPubkey nullSign c6Env
    "MINT" 0 "KEY" (by norm_num [c6Env, get_sol_balance]) rfl
  exact ⟨h.2.2.2.1, h.2.2.2.2.2.2.2⟩

/-- C8 counterexample: for the requested amount 1/10^10 the string sent to
the quote endpoint is "0", yet the amount times 10^9 is 1/10 ≠ 0; the
universal clause "for every requested amount the string sent equals the
amount times 10^9" fails whenever that product is not an integer, because
the code truncates. -/
theorem c8_counterexample :
    amount_in_lamports ((1 : ℚ) / 10 ^ 10) = "0"
  ∧ ((pyTrunc ((1 : ℚ) / 10 ^ 10 * 10 ^ 9) : ℚ) ≠
      (1 : ℚ) / 10 ^ 10 * 10 ^ 9) := by
  have hq : ((1 : ℚ) / 10 ^ 10 * 10 ^ 9) = (1 : ℚ) / 10 := by norm_num
  have h0 : pyTrunc ((1 : ℚ) / 10 ^ 10 * 10 ^ 9) = 0 := by
    rw [hq]
    exact pyTrunc_eq_zero _ (by norm_num) (by norm_num)
  constructor
  · rw [amount_in_lamports, h0]
    decide
  · rw [h0, hq]
    norm_num

/-- C8 (amended): `buy_tokens` converts the requested spend to lamports as
`str(int(amount * 10^9))` — truncation toward zero — and sends that decimal
string in the quote request; whenever `amount * 10^9` is an integer `n` (in
particular for 0.5, where n = 500000000) the string sent is exactly the
decimal representation of `n`. -/
theorem c8_amount_conversion (amount : ℚ) (n : ℤ)
    (pubkeyOf : String → String) (sign : List ℕ → List ℕ) (env : BuyEnv)
    (contract_address : String) (private_key : String)
    (hbal : ¬ get_sol_balance env.balance < amount)
    (hn : amount * 10 ^ 9 = (n : ℚ)) :
    amount_in_lamports amount = toString n
  ∧ Event.quoteCall SOL_ADDRESS contract_address
      (amount_in_lamports amount) ∈
      (buy_tokens_run pubkeyOf sign env contract_address amount
        private_key).2 := by
  constructor
  · rw [amount_in_lamports, hn, pyTrunc_intCast]
  · obtain ⟨t, ht⟩ := buy_trace_extends pubkeyOf sign env contract_address
      amount private_key hbal
    rw [ht]
    simp

/-- A `BuyEnv` reporting a 1 SOL balance. -/
def c8Env : BuyEnv :=
  { balance := .resp 200 (some 1000000000)
    quote := .err "quote down"
    swapBuild := .netErr "swap down"
    relay := .netErr "relay down"
    rpcSend := .netErr "rpc down"
    polls := fun _ => .netErr }

/-- Witness for C8: a requested buy of 0.5 SOL against a 1 SOL balance puts
the string "500000000" in the quote request. -/
theorem c8_amount_conversion_witness :
    amount_in_lamports ((1 : ℚ) / 2) = "500000000"
  ∧ Event.quoteCall SOL_ADDRESS "MINT" (amount_in_lamports ((1 : ℚ) / 2)) ∈
      (buy_tokens_run constPubkey nullSign c8Env "MINT" ((1 : ℚ) / 2)
        "KEY").2 := by
  have h := c8_amount_conversion ((1 : ℚ) / 2) 500000000 constPubkey
    nullSign c8Env "MINT" "KEY" (by norm_num [c8Env, get_sol_balance])
    (by norm_num)
  refine ⟨h.1.trans ?_, h.2⟩
  decide

/-- C9: when the primary relay answers 200 with a body lacking `txid`,
`send_transaction` returns a null identifier — no fallback, no exception —
and `buy_tokens` then starts confirmation polling with that null
identifier. -/
theorem c9_relay_missing_txid (pubkeyOf : String → String)
    (sign : List ℕ → List ℕ) (env : BuyEnv) (contract_address : String)
    (amount : ℚ) (private_key : String) (q text : String)
    (blob encoded : List ℕ)
    (hbal : ¬ get_sol_balance env.balance < amount)
    (hq : env.quote = .ok q)
    (hsb : env.swapBuild = .resp 200 text (some blob))
    (hsig : signAndEncode sign blob = some encoded)
    (hrelay : env.relay = .resp 200 none) :
    send_transaction env.relay env.rpcSend encoded =
      (.ok none, [Event.relaySend encoded])
  ∧ (buy_tokens_run pubkeyOf sign env contract_address amount
      private_key).1 = .ok none
  ∧ (buy_tokens_run pubkeyOf sign env contract_address amount
      private_key).2 =
      [Event.balanceCall (pubkeyOf private_key),
       Event.quoteCall SOL_ADDRESS contract_address
         (amount_in_lamports amount),
       Event.swapBuildCall (create_swap_data q (pubkeyOf private_key)),
       Event.relaySend encoded,
       Event.confirmStart none] := by
  have hsend : send_transaction env.relay env.rpcSend encoded =
      (.ok none, [Event.relaySend encoded]) := by
    rw [hrelay]
    simp [send_transaction]
  have hrun : buy_tokens_run pubkeyOf sign env contract_address amount
      private_key = (.ok none,
      [Event.balanceCall (pubkeyOf private_key),
       Event.quoteCall SOL_ADDRESS contract_address
         (amount_in_lamports amount),
       Event.swapBuildCall (create_swap_data q (pubkeyOf private_key)),
       Event.relaySend encoded,
       Event.confirmStart none]) := by
    simp only [buy_tokens_run, hq, hsb]
    rw [if_neg hbal]
    rw [if_neg (show ¬ ((200 : ℕ) ≠ 200) by decide)]
    rw [hsig]
    dsimp only
    rw [hsend]
    dsimp only
    rw [ite_self]
    simp
  exact ⟨hsend, by rw [hrun], by rw [hrun]⟩

/-- A `BuyEnv` whose swap-build succeeds with the blob `c4Blob` and whose
relay answers 200 without a `txid` field. -/
def c9Env : BuyEnv :=
  { balance := .netErr
    quote := .ok "QUOTE"
    swapBuild := .resp 200 "ok" (some c4Blob)
    relay := .resp 200 none
    rpcSend := .netErr "rpc down"
    polls := fun _ => .netErr }

/-- Witness for C9 on `c9Env`: the run ends without an exception and its
trace polls for confirmation with the null identifier, with no RPC
fallback event. -/
theorem c9_relay_missing_txid_witness :
    (buy_tokens_run constPubkey c4Sign c9Env "MINT" 0 "KEY").1 = .ok none
  ∧ (buy_tokens_run constPubkey c4Sign c9Env "MINT" 0 "KEY").2 =
      [Event.balanceCall (constPubkey "KEY"),
       Event.quoteCall SOL_ADDRESS "MINT" (amount_in_lamports 0),
       Event.swapBuildCall (create_swap_data "QUOTE" (constPubkey "KEY")),
       Event.relaySend (serializeTx ⟨[List.replicate 64 7], [9, 9, 9]⟩),
       Event.confirmStart none] := by
  have hsig : signAndEncode c4Sign c4Blob =
      some (serializeTx ⟨[List.replicate 64 7], [9, 9, 9]⟩) := by
    have hp := parseTx_single (List.replicate 64 0) [9, 9, 9] (by simp)
    rw [show c4Blob = 1 :: (List.replicate 64 0 ++ [9, 9, 9]) from rfl,
      signAndEncode, hp]
    rfl
  have h := c9_relay_missing_txid constPubkey c4Sign c9Env "MINT" 0 "KEY"
    "QUOTE" "ok" c4Blob (serializeTx ⟨[List.replicate 64 7], [9, 9, 9]⟩)
    (by norm_num [c9Env, get_sol_balance]) rfl rfl hsig rfl
  exact ⟨h.2.1, h.2.2⟩

/-- The insufficient-funds abort of `buy_tokens`, factored out. -/
theorem buy_abort_on_low_balance (pubkeyOf : String → String)
    (sign : List ℕ → List ℕ) (env : BuyEnv) (contract_address : String)
    (amount : ℚ) (private_key : String)
    (h : get_sol_balance env.balance < amount) :
    buy_tokens_run pubkeyOf sign env contract_address amount private_key =
      (.error ("Insufficient SOL balance. You have " ++
        toString (get_sol_balance env.balance) ++
        " SOL but trying to spend " ++ toString amount ++ " SOL"),
       [Event.balanceCall (pubkeyOf private_key)]) := by
  simp only [buy_tokens_run]
  rw [if_pos h]

/-- C10: for any strictly positive requested spend, every failure of the
balance lookup (network error, non-200 status, missing `result` field)
makes `get_sol_balance` report 0, which is below the spend, so `buy_tokens`
aborts with the insufficient-funds error before any quote request: a failed
lookup is indistinguishable from a genuine zero balance at the buy decision
point. -/
theorem c10_balance_failure_blocks_buy (pubkeyOf : String → String)
    (sign : List ℕ → List ℕ) (env : BuyEnv) (contract_address : String)
    (amount : ℚ) (private_key : String)
    (hfail : env.balance = .netErr
      ∨ (∃ s v, env.balance = .resp s v ∧ s ≠ 200)
      ∨ ∃ s, env.balance = .resp s none)
    (hpos : 0 < amount) :
    get_sol_balance env.balance = 0
  ∧ (buy_tokens_run pubkeyOf sign env contract_address amount
      private_key).1 =
      .error ("Insufficient SOL balance. You have " ++ toString (0 : ℚ) ++
        " SOL but trying to spend " ++ toString amount ++ " SOL")
  ∧ (∀ im om a, Event.quoteCall im om a ∉
      (buy_tokens_run pubkeyOf sign env contract_address amount
        private_key).2)
  ∧ (buy_tokens pubkeyOf sign env contract_address amount private_key).1 =
      none := by
  have h0 : get_sol_balance env.balance = 0 := by
    rcases hfail with h | ⟨s, v, h, hs⟩ | ⟨s, h⟩
    · rw [h]
      rfl
    · rw [h]
      rcases v with _ | w
      · simp [get_sol_balance]
      · simp [get_sol_balance, hs]
    · rw [h]
      simp [get_sol_balance]
  have hlt : get_sol_balance env.balance < amount := by
    rw [h0]
    exact hpos
  have hrun := buy_abort_on_low_balance pubkeyOf sign env contract_address
    amount private_key hlt
  rw [h0] at hrun
  refine ⟨h0, by rw [hrun], ?_, ?_⟩
  · intro im om a
    rw [hrun]
    simp
  · simp only [buy_tokens]
    rw [hrun]

/-- A `BuyEnv` whose balance query returns status 500. -/
def c10Env : BuyEnv :=
  { balance := .resp 500 (some 7)
    quote := .err "quote down"
    swapBuild := .netErr "swap down"
    relay := .netErr "relay down"
    rpcSend := .netErr "rpc down"
    polls := fun _ => .netErr }

/-- Witness for C10: a 500 from the balance RPC plus a requested spend of
1 SOL aborts the buy with the insufficient-funds error and no quote call. -/
theorem c10_balance_failure_blocks_buy_witness :
    get_sol_balance c10Env.balance = 0
  ∧ (∀ im om a, Event.quoteCall im om a ∉
      (buy_tokens_run constPubkey nullSign c10Env "MINT" 1 "KEY").2)
  ∧ (buy_tokens constPubkey nullSign c10Env "MINT" 1 "KEY").1 = none := by
  have h := c10_balance_failure_blocks_buy constPubkey nullSign c10Env
    "MINT" 1 "KEY" (Or.inr (Or.inl ⟨500, some 7, rfl, by decide⟩))
    (by norm_num)
  exact ⟨h.1, h.2.2.1, h.2.2.2⟩

end SolSwap
